import Mathlib

/-!
Shallow embedding of the rmtrack Cloudflare Workers API
(`functions/api/[[path]].js`) together with the notification decision of the
browser client (`public/app.js`).

Modelling conventions:
* Timestamps are natural numbers.  The JavaScript code stores ISO-8601 strings
  and SQLite compares them lexicographically, which agrees with chronological
  order, so `Nat` timestamps with the usual order are a faithful abstraction.
* The D1 database is a pair of row lists (`tracking`, `tracking_history`);
  `INSERT` appends, `UPDATE ... WHERE` maps over matching rows, `SELECT ...
  .first()` is `List.find?`, `DELETE` filters, and `ORDER BY timestamp DESC`
  is an insertion sort by descending timestamp.
* `trim` and `toUpperCase` are modelled at ASCII level (the character classes
  relevant to tracking identifiers); `\d` is `[0-9]` and the letter classes
  are `[A-Z]` exactly as in the regular expression of the source.
* Each endpoint is a pure function from its inputs and the store to a
  response value and the new store.  The status provider call inside an
  endpoint is abstracted by passing the provider's returned value as an
  argument, and `addTracking` additionally takes a failure schedule recording
  which of its sequential database/provider steps throws, mirroring the
  `try`/`catch` of the source: a throwing step performs no write and control
  jumps to the `catch`, which returns the server-error response.
-/

/-- ASCII model of the whitespace characters removed by JavaScript
`String.prototype.trim` (space, tab, LF, CR, VT, FF). -/
def jsIsWhite (c : Char) : Bool :=
  c.toNat == 32 || c.toNat == 9 || c.toNat == 10 || c.toNat == 13 ||
  c.toNat == 11 || c.toNat == 12

/-- ASCII model of JavaScript `String.prototype.toUpperCase` on one
character: lower-case letters are shifted to upper case, everything else is
unchanged. -/
def jsUpperChar (c : Char) : Char :=
  if 97 ≤ c.toNat && c.toNat ≤ 122 then Char.ofNat (c.toNat - 32) else c

/-- `trim`: drop whitespace from the front, then from the back. -/
def jsTrim (cs : List Char) : List Char :=
  ((cs.dropWhile jsIsWhite).reverse.dropWhile jsIsWhite).reverse

/-- `trackingId.trim().toUpperCase()` at the character-list level. -/
def jsClean (cs : List Char) : List Char :=
  (jsTrim cs).map jsUpperChar

/-- The `cleanId` computed by every endpoint of `[[path]].js`:
`trackingId.trim().toUpperCase()`. -/
def normalizeId (s : String) : String :=
  String.mk (jsClean s.data)

/-- Membership in the regex class `[A-Z]`. -/
def isUpperLetter (c : Char) : Bool :=
  65 ≤ c.toNat && c.toNat ≤ 90

/-- Membership in the regex class `\d`, i.e. `[0-9]`. -/
def isDigitChar (c : Char) : Bool :=
  48 ≤ c.toNat && c.toNat ≤ 57

/-- The anchored regular expression `^[A-Z]{2}\d{9}[A-Z]{2}$` as a predicate
on a character list: exactly 13 characters, the first two and last two in
`[A-Z]`, the middle nine in `[0-9]`. -/
def matchesRoyalMailPattern (cs : List Char) : Bool :=
  cs.length == 13 &&
  (cs.take 2).all isUpperLetter &&
  ((cs.drop 2).take 9).all isDigitChar &&
  (cs.drop 11).all isUpperLetter

/-- `validateTrackingId` from `[[path]].js` (identical in `app.js`): clean
the input, then test the anchored pattern. -/
def validateTrackingId (trackingId : String) : Bool :=
  matchesRoyalMailPattern (jsClean trackingId.data)

/-- A status provider answer: the status string and the delivered flag. -/
structure ProviderResult where
  status : String
  delivered : Bool
deriving DecidableEq

/-- `fetchRoyalMailStatus` from `[[path]].js`, as a function of the elapsed
time `Date.now() - startTime` in milliseconds: the comparisons
`elapsedMinutes < k` of the source are `elapsedMs < k * 60000`. -/
def fetchRoyalMailStatus (elapsedMs : Nat) : ProviderResult :=
  if elapsedMs < 60000 then
    ProviderResult.mk "Item received by Royal Mail" false
  else if elapsedMs < 120000 then
    ProviderResult.mk "In transit to delivery depot" false
  else if elapsedMs < 180000 then
    ProviderResult.mk "At local delivery office" false
  else if elapsedMs < 240000 then
    ProviderResult.mk "Out for delivery" false
  else
    ProviderResult.mk "Delivered and signed for" true

/-- Which one-minute bucket an elapsed time falls into (the fifth bucket is
unbounded). -/
def bucketOf (elapsedMs : Nat) : Nat :=
  min (elapsedMs / 60000) 4

/-- The fixed provider answer of each bucket. -/
def bucketStatus : Nat → ProviderResult
  | 0 => ProviderResult.mk "Item received by Royal Mail" false
  | 1 => ProviderResult.mk "In transit to delivery depot" false
  | 2 => ProviderResult.mk "At local delivery office" false
  | 3 => ProviderResult.mk "Out for delivery" false
  | _ => ProviderResult.mk "Delivered and signed for" true

/-- A row of the `tracking` table.  The columns are exactly those named by
the SQL statements of `[[path]].js`.  The freshly inserted row of
`addTracking` has no status yet and is not delivered: these initial values
are the schema defaults (the migration file is not part of the sources; the
spec's lifecycle — a record is created `ACTIVE` and only later receives a
status — fixes them). -/
structure TrackingRow where
  tracking_id : String
  notifications_enabled : Bool
  started_at : Nat
  last_checked : Nat
  last_status : Option String
  delivered : Bool
  updated_at : Nat
deriving DecidableEq

/-- A row of the `tracking_history` table. -/
structure HistoryRow where
  tracking_id : String
  status : String
  timestamp : Nat
deriving DecidableEq

/-- The D1 database: both tables, rows in insertion order. -/
structure Store where
  tracking : List TrackingRow
  tracking_history : List HistoryRow
deriving DecidableEq

def emptyStore : Store := Store.mk [] []

/-- `SELECT * FROM tracking WHERE tracking_id = ?` followed by `.first()`. -/
def findTracking (st : Store) (id : String) : Option TrackingRow :=
  st.tracking.find? (fun r => r.tracking_id == id)

/-- The history rows of one identifier, in insertion order. -/
def recordHistory (st : Store) (id : String) : List HistoryRow :=
  st.tracking_history.filter (fun h => h.tracking_id == id)

/-- `INSERT INTO tracking ...`. -/
def insertTrackingRow (st : Store) (r : TrackingRow) : Store :=
  Store.mk (st.tracking ++ [r]) st.tracking_history

/-- `INSERT INTO tracking_history (tracking_id, status, timestamp) ...`. -/
def insertHistory (st : Store) (id status : String) (ts : Nat) : Store :=
  Store.mk st.tracking (st.tracking_history ++ [HistoryRow.mk id status ts])

/-- `UPDATE tracking SET ... WHERE tracking_id = ?`: apply `f` to every
matching row. -/
def updateWhere (st : Store) (id : String) (f : TrackingRow → TrackingRow) :
    Store :=
  Store.mk
    (st.tracking.map (fun r => if r.tracking_id == id then f r else r))
    st.tracking_history

/-- The row written by `addTracking`'s initial insert: all three timestamp
columns are the single `now` of the call. -/
def initialRow (cleanId : String) (notificationsEnabled : Bool) (now : Nat) :
    TrackingRow :=
  TrackingRow.mk cleanId notificationsEnabled now now none false now

/-- `UPDATE tracking SET last_status = ?, delivered = ?, updated_at = ?`
(the final step of `addTracking`). -/
def setInitialStatusRow (prov : ProviderResult) (now : Nat)
    (r : TrackingRow) : TrackingRow :=
  TrackingRow.mk r.tracking_id r.notifications_enabled r.started_at
    r.last_checked (some prov.status) prov.delivered now

/-- `UPDATE tracking SET last_status = ?, delivered = ?, last_checked = ?,
updated_at = ?` (the changed branch of `updateTracking`). -/
def setStatusRow (prov : ProviderResult) (now : Nat) (r : TrackingRow) :
    TrackingRow :=
  TrackingRow.mk r.tracking_id r.notifications_enabled r.started_at now
    (some prov.status) prov.delivered now

/-- `UPDATE tracking SET last_checked = ?, updated_at = ?` (the unchanged
branch of `updateTracking`). -/
def touchRow (now : Nat) (r : TrackingRow) : TrackingRow :=
  TrackingRow.mk r.tracking_id r.notifications_enabled r.started_at now
    r.last_status r.delivered now

/-- Which sequential step of `addTracking` throws, if any, mirroring the
single `try`/`catch` of the source. -/
structure DbFail where
  failSelect : Bool
  failInsertTracking : Bool
  failProvider : Bool
  failInsertHistory : Bool
  failUpdateTracking : Bool
deriving DecidableEq

/-- Normal operation: no step throws. -/
def noFail : DbFail := DbFail.mk false false false false false

/-- The response of `addTracking`, keyed by HTTP status: 400, 409, 500, and
the 201 payload. -/
inductive AddResult
  | invalidFormat
  | conflict
  | serverError
  | created (trackingId status : String)
      (delivered notificationsEnabled : Bool)
deriving DecidableEq

/-- `addTracking` from `[[path]].js`.  The steps run in source order:
validate, duplicate-check `SELECT`, `INSERT` into `tracking`, provider
fetch, `INSERT` into `tracking_history`, final `UPDATE`; a step whose fail
flag is set throws before writing and the `catch` returns the 500 response
with the store as the previous steps left it. -/
def addTracking (fs : DbFail) (trackingId : String)
    (notificationsEnabled : Bool) (now : Nat) (prov : ProviderResult)
    (st : Store) : AddResult × Store :=
  if validateTrackingId trackingId then
    let cleanId := normalizeId trackingId
    if fs.failSelect then (AddResult.serverError, st)
    else
      match findTracking st cleanId with
      | some _ => (AddResult.conflict, st)
      | none =>
        if fs.failInsertTracking then (AddResult.serverError, st)
        else
          let st1 := insertTrackingRow st
            (initialRow cleanId notificationsEnabled now)
          if fs.failProvider then (AddResult.serverError, st1)
          else if fs.failInsertHistory then (AddResult.serverError, st1)
          else
            let st2 := insertHistory st1 cleanId prov.status now
            if fs.failUpdateTracking then (AddResult.serverError, st2)
            else
              (AddResult.created cleanId prov.status prov.delivered
                notificationsEnabled,
               updateWhere st2 cleanId (setInitialStatusRow prov now))
  else (AddResult.invalidFormat, st)

/-- The response of `getTracking`: 404, or the 200 payload with the history
array as `(status, timestamp)` pairs in the order the query returns them. -/
inductive GetResult
  | notFound
  | found (trackingId : String) (notificationsEnabled : Bool)
      (startedAt lastChecked : Nat) (lastStatus : Option String)
      (delivered : Bool) (history : List (String × Nat))
deriving DecidableEq

/-- `ORDER BY timestamp DESC`: sort history rows by descending timestamp. -/
def sortTsDesc (l : List HistoryRow) : List HistoryRow :=
  List.insertionSort (fun a b => b.timestamp ≤ a.timestamp) l

/-- `getTracking` from `[[path]].js`: look the record up by the cleaned
identifier, 404 if absent, otherwise return every column of the record plus
its history ordered by `timestamp DESC`. -/
def getTracking (trackingId : String) (st : Store) : GetResult :=
  let cleanId := normalizeId trackingId
  match findTracking st cleanId with
  | none => GetResult.notFound
  | some t =>
      GetResult.found t.tracking_id t.notifications_enabled t.started_at
        t.last_checked t.last_status t.delivered
        ((sortTsDesc (recordHistory st cleanId)).map
          (fun h => (h.status, h.timestamp)))

/-- The response of `updateTracking`: 404, the already-delivered 200
response, or the 200 payload of a performed check. -/
inductive UpdateResult
  | notFound
  | alreadyDelivered
  | checked (trackingId status : String)
      (delivered statusChanged notificationsEnabled : Bool)
deriving DecidableEq

/-- `updateTracking` from `[[path]].js`: look the record up by the cleaned
identifier; 404 if absent; return early if already delivered; otherwise
compare the provider's status string with `last_status` and either append a
history row and rewrite the record, or only touch `last_checked` and
`updated_at`. -/
def updateTracking (trackingId : String) (now : Nat) (prov : ProviderResult)
    (st : Store) : UpdateResult × Store :=
  let cleanId := normalizeId trackingId
  match findTracking st cleanId with
  | none => (UpdateResult.notFound, st)
  | some t =>
    if t.delivered then (UpdateResult.alreadyDelivered, st)
    else
      let statusChanged : Bool := !(t.last_status == some prov.status)
      if statusChanged then
        (UpdateResult.checked cleanId prov.status prov.delivered true
           t.notifications_enabled,
         updateWhere (insertHistory st cleanId prov.status now) cleanId
           (setStatusRow prov now))
      else
        (UpdateResult.checked cleanId prov.status prov.delivered false
           t.notifications_enabled,
         updateWhere st cleanId (touchRow now))

/-- The notification decision of the browser client
(`checkTrackingStatus` in `app.js`): `sendNotification` runs only when the
check response has `statusChanged` true and `notificationsEnabled` true. -/
def clientNotifies : UpdateResult → Bool
  | UpdateResult.checked _ _ _ statusChanged notificationsEnabled =>
      statusChanged && notificationsEnabled
  | _ => false

/-- The response of `deleteTracking`. -/
inductive DeleteResult
  | notFound
  | deleted
deriving DecidableEq

/-- `deleteTracking` from `[[path]].js`: delete by the cleaned identifier;
404 when no row was removed; history rows cascade. -/
def deleteTracking (trackingId : String) (st : Store) :
    DeleteResult × Store :=
  let cleanId := normalizeId trackingId
  let remaining := st.tracking.filter (fun r => !(r.tracking_id == cleanId))
  if remaining.length == st.tracking.length then (DeleteResult.notFound, st)
  else
    (DeleteResult.deleted,
     Store.mk remaining
       (st.tracking_history.filter (fun h => !(h.tracking_id == cleanId))))

/-- A sequence of Check calls for one identifier with a fixed provider
answer, at the given sequence of times. -/
def iterCheck (trackingId : String) (prov : ProviderResult)
    (times : List Nat) (st : Store) : Store :=
  times.foldl (fun s now => (updateTracking trackingId now prov s).2) st

/-! ### Character-level facts about the normalization -/

lemma toNat_charOfNat_of_le (n : Nat) (h : n ≤ 122) :
    (Char.ofNat n).toNat = n := by
  have hv : n.isValidChar := Or.inl (by omega)
  simp [Char.ofNat, hv]
  rfl

lemma toNat_jsUpperChar (c : Char) :
    (jsUpperChar c).toNat =
      if 97 ≤ c.toNat ∧ c.toNat ≤ 122 then c.toNat - 32 else c.toNat := by
  unfold jsUpperChar
  by_cases h : 97 ≤ c.toNat ∧ c.toNat ≤ 122
  · rw [if_pos (by simpa using h), if_pos h,
      toNat_charOfNat_of_le _ (by omega)]
  · rw [if_neg (by simpa using h), if_neg h]

lemma jsUpperChar_eq_self {c : Char}
    (h : ¬(97 ≤ c.toNat ∧ c.toNat ≤ 122)) : jsUpperChar c = c := by
  unfold jsUpperChar
  rw [if_neg (by simpa using h)]

lemma jsUpperChar_idem (c : Char) :
    jsUpperChar (jsUpperChar c) = jsUpperChar c := by
  by_cases h : 97 ≤ c.toNat ∧ c.toNat ≤ 122
  · have h2 : ¬(97 ≤ (jsUpperChar c).toNat ∧ (jsUpperChar c).toNat ≤ 122) := by
      rw [toNat_jsUpperChar, if_pos h]
      omega
    exact jsUpperChar_eq_self h2
  · simp only [jsUpperChar_eq_self h]

lemma jsIsWhite_jsUpperChar (c : Char) :
    jsIsWhite (jsUpperChar c) = jsIsWhite c := by
  rw [Bool.eq_iff_iff]
  simp only [jsIsWhite, Bool.or_eq_true, beq_iff_eq]
  rw [toNat_jsUpperChar]
  split
  · omega
  · exact Iff.rfl

/-! ### Trim behaves like a projection -/

lemma dropWhile_head?_false {α : Type} (p : α → Bool) (l : List α) (x : α)
    (hx : (l.dropWhile p).head? = some x) : p x = false := by
  induction l with
  | nil => simp at hx
  | cons a l ih =>
    rw [List.dropWhile_cons] at hx
    split at hx
    · exact ih hx
    · simp only [List.head?_cons, Option.some.injEq] at hx
      subst hx
      simp_all

lemma getLast?_cons_ne_nil {α : Type} (a : α) (l : List α) (hl : l ≠ []) :
    (a :: l).getLast? = l.getLast? := by
  cases l with
  | nil => exact absurd rfl hl
  | cons b m => rfl

lemma getLast?_dropWhile_of_ne_nil {α : Type} (p : α → Bool) (l : List α)
    (h : l.dropWhile p ≠ []) : (l.dropWhile p).getLast? = l.getLast? := by
  induction l with
  | nil => simp at h
  | cons a l ih =>
    rw [List.dropWhile_cons]
    rw [List.dropWhile_cons] at h
    split
    · rename_i hpa
      split at h
      · have hl : l ≠ [] := by
          intro he
          subst he
          simp at h
        rw [ih h, getLast?_cons_ne_nil a l hl]
      · simp_all
    · rfl

lemma dropWhile_eq_self_of_head? {α : Type} (p : α → Bool) (l : List α)
    (h : ∀ x, l.head? = some x → p x = false) : l.dropWhile p = l := by
  cases l with
  | nil => rfl
  | cons a l =>
    rw [List.dropWhile_cons, if_neg]
    simp [h a rfl]

lemma head?_jsTrim_false (cs : List Char) (x : Char)
    (hx : (jsTrim cs).head? = some x) : jsIsWhite x = false := by
  unfold jsTrim at hx
  rw [List.head?_reverse] at hx
  have hne : (cs.dropWhile jsIsWhite).reverse.dropWhile jsIsWhite ≠ [] := by
    intro he
    rw [he] at hx
    simp at hx
  rw [getLast?_dropWhile_of_ne_nil _ _ hne, List.getLast?_reverse] at hx
  exact dropWhile_head?_false jsIsWhite cs x hx

lemma getLast?_jsTrim_false (cs : List Char) (x : Char)
    (hx : (jsTrim cs).getLast? = some x) : jsIsWhite x = false := by
  unfold jsTrim at hx
  rw [List.getLast?_reverse] at hx
  exact dropWhile_head?_false jsIsWhite _ x hx

lemma jsTrim_eq_self (l : List Char)
    (h1 : ∀ x, l.head? = some x → jsIsWhite x = false)
    (h2 : ∀ x, l.getLast? = some x → jsIsWhite x = false) : jsTrim l = l := by
  unfold jsTrim
  rw [dropWhile_eq_self_of_head? _ _ h1]
  rw [dropWhile_eq_self_of_head? _ _ (by
    intro x hx
    rw [List.head?_reverse] at hx
    exact h2 x hx)]
  exact List.reverse_reverse l

lemma jsClean_idem (cs : List Char) : jsClean (jsClean cs) = jsClean cs := by
  unfold jsClean
  rw [jsTrim_eq_self ((jsTrim cs).map jsUpperChar)
    (by
      intro x hx
      rw [List.head?_map] at hx
      obtain ⟨y, hy, hxy⟩ := Option.map_eq_some'.mp hx
      subst hxy
      rw [jsIsWhite_jsUpperChar]
      exact head?_jsTrim_false cs y hy)
    (by
      intro x hx
      rw [List.getLast?_map] at hx
      obtain ⟨y, hy, hxy⟩ := Option.map_eq_some'.mp hx
      subst hxy
      rw [jsIsWhite_jsUpperChar]
      exact getLast?_jsTrim_false cs y hy)]
  rw [List.map_map]
  exact List.map_congr_left (fun a _ => jsUpperChar_idem a)

lemma normalizeId_idem (s : String) :
    normalizeId (normalizeId s) = normalizeId s := by
  unfold normalizeId
  exact congrArg String.mk (jsClean_idem s.data)

/-! ### Store helper lemmas -/

lemma find?_map_if {l : List TrackingRow} {id : String}
    {f : TrackingRow → TrackingRow}
    (hf : ∀ r, (f r).tracking_id = r.tracking_id) :
    (l.map (fun r => if r.tracking_id == id then f r else r)).find?
        (fun r => r.tracking_id == id) =
      Option.map f (l.find? (fun r => r.tracking_id == id)) := by
  induction l with
  | nil => rfl
  | cons a l ih =>
    rw [List.map_cons]
    by_cases h : (a.tracking_id == id) = true
    · rw [if_pos h,
        List.find?_cons_of_pos (p := fun (r : TrackingRow) => r.tracking_id == id) _
          (by simp only [hf]; exact h),
        List.find?_cons_of_pos (p := fun (r : TrackingRow) => r.tracking_id == id) _ h]
      rfl
    · rw [if_neg h,
        List.find?_cons_of_neg (p := fun (r : TrackingRow) => r.tracking_id == id) _ h,
        List.find?_cons_of_neg (p := fun (r : TrackingRow) => r.tracking_id == id) _ h, ih]

lemma findTracking_updateWhere (st : Store) (id : String)
    (f : TrackingRow → TrackingRow)
    (hf : ∀ r, (f r).tracking_id = r.tracking_id) :
    findTracking (updateWhere st id f) id =
      Option.map f (findTracking st id) :=
  find?_map_if hf

lemma recordHistory_insertHistory (st : Store) (id s : String) (ts : Nat)
    (id' : String) :
    recordHistory (insertHistory st id s ts) id' =
      if id == id' then recordHistory st id' ++ [HistoryRow.mk id s ts]
      else recordHistory st id' := by
  unfold recordHistory insertHistory
  rw [List.filter_append]
  by_cases h : (id == id') = true
  · rw [if_pos h]
    simp [List.filter, h]
  · rw [if_neg h]
    simp [List.filter, h]

/-- C10: Get, Check and Delete all normalize their identifier (trim and
upper-case) before the store lookup, so an identifier and its normalized
form address the same record and give the same result.  Proved from
idempotence of the normalization: each operation applied to `s` literally
computes with `normalizeId s`, which is also what it computes with when
handed `normalizeId s` itself. -/
theorem boundary_ops_normalize_identifier (s : String) (st : Store)
    (now : Nat) (prov : ProviderResult) :
    getTracking s st = getTracking (normalizeId s) st ∧
    updateTracking s now prov st = updateTracking (normalizeId s) now prov st ∧
    deleteTracking s st = deleteTracking (normalizeId s) st := by
  refine ⟨?_, ?_, ?_⟩ <;>
    simp only [getTracking, updateTracking, deleteTracking, normalizeId_idem]

/-- C5: a Check on a record whose delivered flag is already set returns the
already-delivered success response and leaves the store untouched.  The
provider answer `prov` and the time `now` are universally quantified and do
not occur in the result, so no provider query can influence the call, and
the client's notification decision on this response is negative. -/
theorem check_noop_on_delivered (s : String) (st : Store) (now : Nat)
    (prov : ProviderResult) (t : TrackingRow)
    (hfind : findTracking st (normalizeId s) = some t)
    (hdel : t.delivered = true) :
    updateTracking s now prov st = (UpdateResult.alreadyDelivered, st) ∧
    clientNotifies (updateTracking s now prov st).1 = false := by
  simp [updateTracking, hfind, hdel, clientNotifies]

/-- C5 witness. -/
theorem check_noop_on_delivered_witness :
    updateTracking "AB123456789GB" 7 (ProviderResult.mk "x" false)
        (Store.mk [TrackingRow.mk "AB123456789GB" true 0 0
          (some "Delivered and signed for") true 0] []) =
      (UpdateResult.alreadyDelivered,
       Store.mk [TrackingRow.mk "AB123456789GB" true 0 0
         (some "Delivered and signed for") true 0] []) ∧
    clientNotifies (updateTracking "AB123456789GB" 7
        (ProviderResult.mk "x" false)
        (Store.mk [TrackingRow.mk "AB123456789GB" true 0 0
          (some "Delivered and signed for") true 0] [])).1 = false :=
  check_noop_on_delivered "AB123456789GB"
    (Store.mk [TrackingRow.mk "AB123456789GB" true 0 0
      (some "Delivered and signed for") true 0] [])
    7 (ProviderResult.mk "x" false)
    (TrackingRow.mk "AB123456789GB" true 0 0
      (some "Delivered and signed for") true 0)
    (by decide) (by decide)

/-- C7: adding an identifier that already has a record fails with the 409
conflict response, and the store — record and history alike — is exactly
what it was before the call. -/
theorem add_duplicate_conflict_store_unchanged (s : String) (st : Store)
    (notificationsEnabled : Bool) (now : Nat) (prov : ProviderResult)
    (t : TrackingRow)
    (hv : validateTrackingId s = true)
    (hfind : findTracking st (normalizeId s) = some t) :
    addTracking noFail s notificationsEnabled now prov st =
      (AddResult.conflict, st) := by
  simp [addTracking, hv, hfind, noFail]

/-- C7 witness. -/
theorem add_duplicate_conflict_store_unchanged_witness :
    addTracking noFail "AB123456789GB" false 5
        (ProviderResult.mk "Item received by Royal Mail" false)
        (Store.mk [TrackingRow.mk "AB123456789GB" false 0 0
          (some "Item received by Royal Mail") false 0]
          [HistoryRow.mk "AB123456789GB" "Item received by Royal Mail" 0]) =
      (AddResult.conflict,
       Store.mk [TrackingRow.mk "AB123456789GB" false 0 0
         (some "Item received by Royal Mail") false 0]
         [HistoryRow.mk "AB123456789GB" "Item received by Royal Mail" 0]) :=
  add_duplicate_conflict_store_unchanged "AB123456789GB"
    (Store.mk [TrackingRow.mk "AB123456789GB" false 0 0
      (some "Item received by Royal Mail") false 0]
      [HistoryRow.mk "AB123456789GB" "Item received by Royal Mail" 0])
    false 5 (ProviderResult.mk "Item received by Royal Mail" false)
    (TrackingRow.mk "AB123456789GB" false 0 0
      (some "Item received by Royal Mail") false 0)
    (by decide) (by decide)

/-! ### The two branches of a performed Check -/

lemma check_unchanged_step (s : String) (st : Store) (now : Nat)
    (prov : ProviderResult) (t : TrackingRow)
    (hfind : findTracking st (normalizeId s) = some t)
    (hnd : t.delivered = false)
    (heq : t.last_status = some prov.status) :
    updateTracking s now prov st =
      (UpdateResult.checked (normalizeId s) prov.status prov.delivered false
        t.notifications_enabled,
       updateWhere st (normalizeId s) (touchRow now)) := by
  have hb : (t.last_status == some prov.status) = true := by simp [heq]
  simp [updateTracking, hfind, hnd, hb]

lemma check_changed_step (s : String) (st : Store) (now : Nat)
    (prov : ProviderResult) (t : TrackingRow)
    (hfind : findTracking st (normalizeId s) = some t)
    (hnd : t.delivered = false)
    (hne : (t.last_status == some prov.status) = false) :
    updateTracking s now prov st =
      (UpdateResult.checked (normalizeId s) prov.status prov.delivered true
        t.notifications_enabled,
       updateWhere (insertHistory st (normalizeId s) prov.status now)
         (normalizeId s) (setStatusRow prov now)) := by
  simp [updateTracking, hfind, hnd, hne]

/-- C2: on a non-delivered record, a Check whose provider answer carries
`delivered = true` but a status string equal to the record's `lastStatus`
takes the unchanged branch: the stored record keeps `delivered = false`
(stays `ACTIVE`) and no history row is written; and delivery is recognized
exactly on a Check whose status string differs, where the changed branch
copies the provider's delivered flag into the record. -/
theorem check_unchanged_delivered_not_recognized (s : String) (st : Store)
    (now : Nat) (prov : ProviderResult) (t : TrackingRow)
    (hfind : findTracking st (normalizeId s) = some t)
    (hnd : t.delivered = false) :
    (t.last_status = some prov.status →
      (updateTracking s now prov st).2.tracking_history =
        st.tracking_history ∧
      findTracking (updateTracking s now prov st).2 (normalizeId s) =
        some (touchRow now t) ∧
      (touchRow now t).delivered = false ∧
      (touchRow now t).last_status = t.last_status ∧
      (updateTracking s now prov st).1 =
        UpdateResult.checked (normalizeId s) prov.status prov.delivered false
          t.notifications_enabled) ∧
    (t.last_status ≠ some prov.status → prov.delivered = true →
      findTracking (updateTracking s now prov st).2 (normalizeId s) =
        some (setStatusRow prov now t) ∧
      (setStatusRow prov now t).delivered = true) := by
  constructor
  · intro heq
    rw [check_unchanged_step s st now prov t hfind hnd heq]
    refine ⟨rfl, ?_, hnd, rfl, rfl⟩
    show findTracking (updateWhere st (normalizeId s) (touchRow now))
      (normalizeId s) = some (touchRow now t)
    rw [findTracking_updateWhere st (normalizeId s) (touchRow now)
      (fun r => rfl), hfind]
    rfl
  · intro hne hd
    have hb : (t.last_status == some prov.status) = false := by
      simpa using hne
    rw [check_changed_step s st now prov t hfind hnd hb]
    constructor
    · show findTracking
        (updateWhere (insertHistory st (normalizeId s) prov.status now)
          (normalizeId s) (setStatusRow prov now))
        (normalizeId s) = some (setStatusRow prov now t)
      rw [findTracking_updateWhere
        (insertHistory st (normalizeId s) prov.status now)
        (normalizeId s) (setStatusRow prov now) (fun r => rfl)]
      have hfind2 : findTracking
          (insertHistory st (normalizeId s) prov.status now)
          (normalizeId s) = some t := hfind
      rw [hfind2]
      rfl
    · simp [setStatusRow, hd]

/-- C2 witness: the quirk branch at a concrete record whose provider answer
says delivered with an unchanged status string. -/
theorem check_unchanged_delivered_not_recognized_witness :
    (updateTracking "AB123456789GB" 9
        (ProviderResult.mk "Out for delivery" true)
        (Store.mk [TrackingRow.mk "AB123456789GB" true 0 3
          (some "Out for delivery") false 3]
          [HistoryRow.mk "AB123456789GB" "Out for delivery" 3])).2.tracking_history =
      (Store.mk [TrackingRow.mk "AB123456789GB" true 0 3
          (some "Out for delivery") false 3]
          [HistoryRow.mk "AB123456789GB" "Out for delivery" 3]).tracking_history ∧
    findTracking (updateTracking "AB123456789GB" 9
        (ProviderResult.mk "Out for delivery" true)
        (Store.mk [TrackingRow.mk "AB123456789GB" true 0 3
          (some "Out for delivery") false 3]
          [HistoryRow.mk "AB123456789GB" "Out for delivery" 3])).2
        (normalizeId "AB123456789GB") =
      some (touchRow 9 (TrackingRow.mk "AB123456789GB" true 0 3
        (some "Out for delivery") false 3)) ∧
    (touchRow 9 (TrackingRow.mk "AB123456789GB" true 0 3
      (some "Out for delivery") false 3)).delivered = false ∧
    (touchRow 9 (TrackingRow.mk "AB123456789GB" true 0 3
      (some "Out for delivery") false 3)).last_status =
      (TrackingRow.mk "AB123456789GB" true 0 3
        (some "Out for delivery") false 3).last_status ∧
    (updateTracking "AB123456789GB" 9
        (ProviderResult.mk "Out for delivery" true)
        (Store.mk [TrackingRow.mk "AB123456789GB" true 0 3
          (some "Out for delivery") false 3]
          [HistoryRow.mk "AB123456789GB" "Out for delivery" 3])).1 =
      UpdateResult.checked (normalizeId "AB123456789GB") "Out for delivery"
        true false true :=
  (check_unchanged_delivered_not_recognized "AB123456789GB"
    (Store.mk [TrackingRow.mk "AB123456789GB" true 0 3
      (some "Out for delivery") false 3]
      [HistoryRow.mk "AB123456789GB" "Out for delivery" 3])
    9 (ProviderResult.mk "Out for delivery" true)
    (TrackingRow.mk "AB123456789GB" true 0 3
      (some "Out for delivery") false 3)
    (by decide) (by decide)).1 (by decide)

/-! ### Iterated unchanged checks -/

lemma iterCheck_unchanged_frame (s : String) (prov : ProviderResult)
    (ts : List Nat) (st : Store) (t : TrackingRow)
    (hfind : findTracking st (normalizeId s) = some t)
    (hnd : t.delivered = false)
    (heq : t.last_status = some prov.status) :
    (iterCheck s prov ts st).tracking_history = st.tracking_history ∧
    findTracking (iterCheck s prov ts st) (normalizeId s) =
      some (TrackingRow.mk t.tracking_id t.notifications_enabled
        t.started_at (ts.getLastD t.last_checked) t.last_status t.delivered
        (ts.getLastD t.updated_at)) := by
  induction ts generalizing st t with
  | nil => exact ⟨rfl, hfind⟩
  | cons n ts ih =>
    have hstep := check_unchanged_step s st n prov t hfind hnd heq
    have hst2 : (updateTracking s n prov st).2 =
        updateWhere st (normalizeId s) (touchRow n) := by rw [hstep]
    have hiter : iterCheck s prov (n :: ts) st =
        iterCheck s prov ts (updateTracking s n prov st).2 := rfl
    rw [hiter, hst2]
    have hfind1 : findTracking (updateWhere st (normalizeId s) (touchRow n))
        (normalizeId s) = some (touchRow n t) := by
      rw [findTracking_updateWhere st (normalizeId s) (touchRow n)
        (fun r => rfl), hfind]
      rfl
    have hres := ih (updateWhere st (normalizeId s) (touchRow n))
      (touchRow n t) hfind1 hnd heq
    refine ⟨hres.1, ?_⟩
    rw [hres.2, List.getLastD_cons, List.getLastD_cons]
    rfl

/-- C6: a Check on a non-delivered record whose provider status equals the
stored `lastStatus` returns the unchanged response, notifies nobody, leaves
the history table untouched, and rewrites the record only at its
`lastCheckedAt` (and the bookkeeping column `updatedAt`), both set to `now`;
and a whole sequence of such unchanged Checks still leaves the history and
every other field of the record untouched, with `lastCheckedAt` ending at
the final check time. -/
theorem check_unchanged_frame (s : String) (st : Store) (now : Nat)
    (prov : ProviderResult) (t : TrackingRow) (ts : List Nat)
    (hfind : findTracking st (normalizeId s) = some t)
    (hnd : t.delivered = false)
    (heq : t.last_status = some prov.status) :
    (updateTracking s now prov st).1 =
      UpdateResult.checked (normalizeId s) prov.status prov.delivered false
        t.notifications_enabled ∧
    clientNotifies (updateTracking s now prov st).1 = false ∧
    (updateTracking s now prov st).2.tracking_history =
      st.tracking_history ∧
    findTracking (updateTracking s now prov st).2 (normalizeId s) =
      some (touchRow now t) ∧
    (touchRow now t).last_checked = now ∧
    (touchRow now t).last_status = t.last_status ∧
    (touchRow now t).delivered = false ∧
    (touchRow now t).started_at = t.started_at ∧
    (touchRow now t).notifications_enabled = t.notifications_enabled ∧
    (iterCheck s prov ts st).tracking_history = st.tracking_history ∧
    findTracking (iterCheck s prov ts st) (normalizeId s) =
      some (TrackingRow.mk t.tracking_id t.notifications_enabled
        t.started_at (ts.getLastD t.last_checked) t.last_status t.delivered
        (ts.getLastD t.updated_at)) := by
  have hstep := check_unchanged_step s st now prov t hfind hnd heq
  have hiter := iterCheck_unchanged_frame s prov ts st t hfind hnd heq
  refine ⟨?_, ?_, ?_, ?_, rfl, rfl, hnd, rfl, rfl, hiter.1, hiter.2⟩
  · rw [hstep]
  · rw [hstep]
    simp [clientNotifies]
  · rw [hstep]
    rfl
  · rw [hstep]
    show findTracking (updateWhere st (normalizeId s) (touchRow now))
      (normalizeId s) = some (touchRow now t)
    rw [findTracking_updateWhere st (normalizeId s) (touchRow now)
      (fun r => rfl), hfind]
    rfl

/-- C6 witness: two successive unchanged Checks at times 11 and 12 on a
concrete record. -/
theorem check_unchanged_frame_witness :
    (updateTracking "AB123456789GB" 11
        (ProviderResult.mk "In transit to delivery depot" false)
        (Store.mk [TrackingRow.mk "AB123456789GB" true 0 5
          (some "In transit to delivery depot") false 5]
          [HistoryRow.mk "AB123456789GB" "In transit to delivery depot" 5])).1 =
      UpdateResult.checked (normalizeId "AB123456789GB")
        "In transit to delivery depot" false false true ∧
    clientNotifies (updateTracking "AB123456789GB" 11
        (ProviderResult.mk "In transit to delivery depot" false)
        (Store.mk [TrackingRow.mk "AB123456789GB" true 0 5
          (some "In transit to delivery depot") false 5]
          [HistoryRow.mk "AB123456789GB" "In transit to delivery depot" 5])).1 =
      false ∧
    (updateTracking "AB123456789GB" 11
        (ProviderResult.mk "In transit to delivery depot" false)
        (Store.mk [TrackingRow.mk "AB123456789GB" true 0 5
          (some "In transit to delivery depot") false 5]
          [HistoryRow.mk "AB123456789GB" "In transit to delivery depot" 5])).2.tracking_history =
      (Store.mk [TrackingRow.mk "AB123456789GB" true 0 5
          (some "In transit to delivery depot") false 5]
          [HistoryRow.mk "AB123456789GB" "In transit to delivery depot" 5]).tracking_history ∧
    findTracking (updateTracking "AB123456789GB" 11
        (ProviderResult.mk "In transit to delivery depot" false)
        (Store.mk [TrackingRow.mk "AB123456789GB" true 0 5
          (some "In transit to delivery depot") false 5]
          [HistoryRow.mk "AB123456789GB" "In transit to delivery depot" 5])).2
        (normalizeId "AB123456789GB") =
      some (touchRow 11 (TrackingRow.mk "AB123456789GB" true 0 5
        (some "In transit to delivery depot") false 5)) ∧
    (touchRow 11 (TrackingRow.mk "AB123456789GB" true 0 5
      (some "In transit to delivery depot") false 5)).last_checked = 11 ∧
    (touchRow 11 (TrackingRow.mk "AB123456789GB" true 0 5
      (some "In transit to delivery depot") false 5)).last_status =
      (TrackingRow.mk "AB123456789GB" true 0 5
        (some "In transit to delivery depot") false 5).last_status ∧
    (touchRow 11 (TrackingRow.mk "AB123456789GB" true 0 5
      (some "In transit to delivery depot") false 5)).delivered = false ∧
    (touchRow 11 (TrackingRow.mk "AB123456789GB" true 0 5
      (some "In transit to delivery depot") false 5)).started_at =
      (TrackingRow.mk "AB123456789GB" true 0 5
        (some "In transit to delivery depot") false 5).started_at ∧
    (touchRow 11 (TrackingRow.mk "AB123456789GB" true 0 5
      (some "In transit to delivery depot") false 5)).notifications_enabled =
      (TrackingRow.mk "AB123456789GB" true 0 5
        (some "In transit to delivery depot") false 5).notifications_enabled ∧
    (iterCheck "AB123456789GB"
        (ProviderResult.mk "In transit to delivery depot" false) [11, 12]
        (Store.mk [TrackingRow.mk "AB123456789GB" true 0 5
          (some "In transit to delivery depot") false 5]
          [HistoryRow.mk "AB123456789GB" "In transit to delivery depot" 5])).tracking_history =
      (Store.mk [TrackingRow.mk "AB123456789GB" true 0 5
          (some "In transit to delivery depot") false 5]
          [HistoryRow.mk "AB123456789GB" "In transit to delivery depot" 5]).tracking_history ∧
    findTracking (iterCheck "AB123456789GB"
        (ProviderResult.mk "In transit to delivery depot" false) [11, 12]
        (Store.mk [TrackingRow.mk "AB123456789GB" true 0 5
          (some "In transit to delivery depot") false 5]
          [HistoryRow.mk "AB123456789GB" "In transit to delivery depot" 5]))
        (normalizeId "AB123456789GB") =
      some (TrackingRow.mk "AB123456789GB" true 0
        ([11, 12].getLastD 5) (some "In transit to delivery depot") false
        ([11, 12].getLastD 5)) :=
  check_unchanged_frame "AB123456789GB"
    (Store.mk [TrackingRow.mk "AB123456789GB" true 0 5
      (some "In transit to delivery depot") false 5]
      [HistoryRow.mk "AB123456789GB" "In transit to delivery depot" 5])
    11 (ProviderResult.mk "In transit to delivery depot" false)
    (TrackingRow.mk "AB123456789GB" true 0 5
      (some "In transit to delivery depot") false 5)
    [11, 12] (by decide) (by decide) (by decide)

/-! ### Get and the order of the returned history -/

instance : IsTotal HistoryRow (fun a b => b.timestamp ≤ a.timestamp) :=
  ⟨fun a b => Nat.le_total b.timestamp a.timestamp⟩

instance : IsTrans HistoryRow (fun a b => b.timestamp ≤ a.timestamp) :=
  ⟨fun _ _ _ hab hbc => Nat.le_trans hbc hab⟩

/-- The history array of a Get response. -/
def getHistory : GetResult → List (String × Nat)
  | GetResult.found _ _ _ _ _ _ h => h
  | GetResult.notFound => []

/-- C3 counterexample: with two history rows inserted at times 100 and 200,
Get returns the newer row first — `ORDER BY timestamp DESC` — so the
returned history is not sorted by timestamp ascending as the claim states. -/
theorem get_history_ascending_counterexample :
    getHistory (getTracking "AB123456789GB"
      (Store.mk [TrackingRow.mk "AB123456789GB" false 0 0
        (some "In transit to delivery depot") false 0]
        [HistoryRow.mk "AB123456789GB" "Item received by Royal Mail" 100,
         HistoryRow.mk "AB123456789GB" "In transit to delivery depot" 200])) =
      [("In transit to delivery depot", 200),
       ("Item received by Royal Mail", 100)] ∧
    ¬ List.Pairwise (fun a b => a.2 ≤ b.2)
      (getHistory (getTracking "AB123456789GB"
        (Store.mk [TrackingRow.mk "AB123456789GB" false 0 0
          (some "In transit to delivery depot") false 0]
          [HistoryRow.mk "AB123456789GB" "Item received by Royal Mail" 100,
           HistoryRow.mk "AB123456789GB" "In transit to delivery depot" 200]))) := by
  decide

/-- C3 (amended): Get on an existing record returns every field of the
record together with its full history — a permutation of the stored history
rows of that identifier — as `(status, timestamp)` pairs sorted by
timestamp descending (newest first). -/
theorem get_returns_record_and_history_desc (s : String) (st : Store)
    (t : TrackingRow)
    (hfind : findTracking st (normalizeId s) = some t) :
    getTracking s st =
      GetResult.found t.tracking_id t.notifications_enabled t.started_at
        t.last_checked t.last_status t.delivered
        ((sortTsDesc (recordHistory st (normalizeId s))).map
          (fun h => (h.status, h.timestamp))) ∧
    List.Pairwise (fun a b => b.2 ≤ a.2)
      ((sortTsDesc (recordHistory st (normalizeId s))).map
        (fun h => (h.status, h.timestamp))) ∧
    ((sortTsDesc (recordHistory st (normalizeId s))).map
      (fun h => (h.status, h.timestamp))).Perm
      ((recordHistory st (normalizeId s)).map
        (fun h => (h.status, h.timestamp))) := by
  refine ⟨by simp [getTracking, hfind], ?_, ?_⟩
  · exact List.Pairwise.map _ (fun a b hab => hab)
      (List.sorted_insertionSort _ (recordHistory st (normalizeId s)))
  · exact (List.perm_insertionSort _ _).map _

/-- C3 witness. -/
theorem get_returns_record_and_history_desc_witness :
    getTracking "AB123456789GB"
      (Store.mk [TrackingRow.mk "AB123456789GB" false 0 0
        (some "In transit to delivery depot") false 0]
        [HistoryRow.mk "AB123456789GB" "Item received by Royal Mail" 100,
         HistoryRow.mk "AB123456789GB" "In transit to delivery depot" 200]) =
      GetResult.found "AB123456789GB" false 0 0
        (some "In transit to delivery depot") false
        ((sortTsDesc (recordHistory
          (Store.mk [TrackingRow.mk "AB123456789GB" false 0 0
            (some "In transit to delivery depot") false 0]
            [HistoryRow.mk "AB123456789GB" "Item received by Royal Mail" 100,
             HistoryRow.mk "AB123456789GB" "In transit to delivery depot" 200])
          (normalizeId "AB123456789GB"))).map
          (fun h => (h.status, h.timestamp))) ∧
    List.Pairwise (fun a b => b.2 ≤ a.2)
      ((sortTsDesc (recordHistory
        (Store.mk [TrackingRow.mk "AB123456789GB" false 0 0
          (some "In transit to delivery depot") false 0]
          [HistoryRow.mk "AB123456789GB" "Item received by Royal Mail" 100,
           HistoryRow.mk "AB123456789GB" "In transit to delivery depot" 200])
        (normalizeId "AB123456789GB"))).map
        (fun h => (h.status, h.timestamp))) ∧
    ((sortTsDesc (recordHistory
      (Store.mk [TrackingRow.mk "AB123456789GB" false 0 0
        (some "In transit to delivery depot") false 0]
        [HistoryRow.mk "AB123456789GB" "Item received by Royal Mail" 100,
         HistoryRow.mk "AB123456789GB" "In transit to delivery depot" 200])
      (normalizeId "AB123456789GB"))).map
      (fun h => (h.status, h.timestamp))).Perm
      ((recordHistory
        (Store.mk [TrackingRow.mk "AB123456789GB" false 0 0
          (some "In transit to delivery depot") false 0]
          [HistoryRow.mk "AB123456789GB" "Item received by Royal Mail" 100,
           HistoryRow.mk "AB123456789GB" "In transit to delivery depot" 200])
        (normalizeId "AB123456789GB")).map
        (fun h => (h.status, h.timestamp))) :=
  get_returns_record_and_history_desc "AB123456789GB"
    (Store.mk [TrackingRow.mk "AB123456789GB" false 0 0
      (some "In transit to delivery depot") false 0]
      [HistoryRow.mk "AB123456789GB" "Item received by Royal Mail" 100,
       HistoryRow.mk "AB123456789GB" "In transit to delivery depot" 200])
    (TrackingRow.mk "AB123456789GB" false 0 0
      (some "In transit to delivery depot") false 0)
    (by decide)

/-! ### The lastStatus/history invariant -/

/-- For every record whose history is non-empty, `last_status` is the status
of the most recent history entry: the last-appended row, which also carries
a maximal timestamp among that record's history rows. -/
def HistInv (st : Store) : Prop :=
  ∀ t ∈ st.tracking, ∀ e,
    (recordHistory st t.tracking_id).getLast? = some e →
      t.last_status = some e.status ∧
      ∀ g ∈ recordHistory st t.tracking_id, g.timestamp ≤ e.timestamp

lemma histInv_append_update (st : Store) (clean status : String) (now : Nat)
    (f : TrackingRow → TrackingRow)
    (hfid : ∀ r, (f r).tracking_id = r.tracking_id)
    (hfls : ∀ r, (f r).last_status = some status)
    (hinv : ∀ t ∈ st.tracking, t.tracking_id ≠ clean →
      ∀ e, (recordHistory st t.tracking_id).getLast? = some e →
        t.last_status = some e.status ∧
        ∀ g ∈ recordHistory st t.tracking_id, g.timestamp ≤ e.timestamp)
    (hts : ∀ h ∈ st.tracking_history, h.timestamp ≤ now) :
    HistInv (updateWhere (insertHistory st clean status now) clean f) := by
  intro t' ht' e he
  obtain ⟨r0, hr0, hgr0⟩ := List.mem_map.mp ht'
  by_cases hid : (r0.tracking_id == clean) = true
  · have hclean : r0.tracking_id = clean := by simpa using hid
    have ht'eq : t' = f r0 := by rw [← hgr0, if_pos hid]
    have htid : t'.tracking_id = clean := by rw [ht'eq, hfid, hclean]
    have hrh : recordHistory
        (updateWhere (insertHistory st clean status now) clean f)
        t'.tracking_id =
        recordHistory st clean ++ [HistoryRow.mk clean status now] := by
      rw [htid]
      show recordHistory (insertHistory st clean status now) clean = _
      rw [recordHistory_insertHistory, if_pos (by simp)]
    rw [hrh, List.getLast?_concat] at he
    have he' : HistoryRow.mk clean status now = e := by
      injection he
    constructor
    · rw [ht'eq, hfls, ← he']
    · intro g hg
      rw [hrh] at hg
      rcases List.mem_append.mp hg with hold | hnew
      · have : g ∈ st.tracking_history :=
          (List.mem_filter.mp hold).1
        rw [← he']
        exact hts g this
      · rw [List.mem_singleton.mp hnew, ← he']
  · have hclean : r0.tracking_id ≠ clean := by simpa using hid
    have ht'eq : t' = r0 := by rw [← hgr0, if_neg hid]
    have hrh : recordHistory
        (updateWhere (insertHistory st clean status now) clean f)
        t'.tracking_id = recordHistory st r0.tracking_id := by
      rw [ht'eq]
      show recordHistory (insertHistory st clean status now) r0.tracking_id
        = _
      rw [recordHistory_insertHistory,
        if_neg (by
          simp only [beq_iff_eq]
          intro h
          exact hclean h.symm)]
    rw [hrh] at he
    obtain ⟨h1, h2⟩ := hinv r0 hr0 hclean e he
    constructor
    · rw [ht'eq]
      exact h1
    · intro g hg
      rw [hrh] at hg
      exact h2 g hg

lemma histInv_updateWhere_preserve (st : Store) (clean : String)
    (f : TrackingRow → TrackingRow)
    (hfid : ∀ r, (f r).tracking_id = r.tracking_id)
    (hfls : ∀ r, (f r).last_status = r.last_status)
    (hinv : HistInv st) : HistInv (updateWhere st clean f) := by
  intro t' ht' e he
  obtain ⟨r0, hr0, hgr0⟩ := List.mem_map.mp ht'
  have htid : t'.tracking_id = r0.tracking_id := by
    rw [← hgr0]
    by_cases hid : (r0.tracking_id == clean) = true
    · rw [if_pos hid, hfid]
    · rw [if_neg hid]
  have htls : t'.last_status = r0.last_status := by
    rw [← hgr0]
    by_cases hid : (r0.tracking_id == clean) = true
    · rw [if_pos hid, hfls]
    · rw [if_neg hid]
  rw [htid] at he
  obtain ⟨h1, h2⟩ := hinv r0 hr0 e he
  constructor
  · rw [htls]
    exact h1
  · intro g hg
    rw [htid] at hg
    exact h2 g hg

/-- C4: the invariant "`lastStatus` equals the status of the most recent
history entry (which also has maximal timestamp)" is preserved by Add and by
Check, provided the current time is no older than every stored history
timestamp: Add writes the initial status to the record and to history in
the same call, Check's changed branch appends the history row and rewrites
`lastStatus` together, and the unchanged branch touches neither. -/
theorem lastStatus_matches_most_recent_history (s : String) (st : Store)
    (notificationsEnabled : Bool) (now : Nat) (prov : ProviderResult)
    (hinv : HistInv st)
    (hts : ∀ h ∈ st.tracking_history, h.timestamp ≤ now) :
    HistInv (addTracking noFail s notificationsEnabled now prov st).2 ∧
    HistInv (updateTracking s now prov st).2 := by
  constructor
  · by_cases hv : validateTrackingId s = true
    · cases hfind : findTracking st (normalizeId s) with
      | some t =>
        have h2 : (addTracking noFail s notificationsEnabled now prov st).2 =
            st := by
          simp [addTracking, hv, hfind, noFail]
        rw [h2]
        exact hinv
      | none =>
        have h2 : (addTracking noFail s notificationsEnabled now prov st).2 =
            updateWhere
              (insertHistory
                (insertTrackingRow st
                  (initialRow (normalizeId s) notificationsEnabled now))
                (normalizeId s) prov.status now)
              (normalizeId s) (setInitialStatusRow prov now) := by
          simp [addTracking, hv, hfind, noFail]
        rw [h2]
        apply histInv_append_update
          (insertTrackingRow st
            (initialRow (normalizeId s) notificationsEnabled now))
          (normalizeId s) prov.status now (setInitialStatusRow prov now)
          (fun r => rfl) (fun r => rfl)
        · intro t ht htne e he
          rcases List.mem_append.mp ht with hmem | hnew
          · exact hinv t hmem e he
          · exact absurd (by rw [List.mem_singleton.mp hnew]; rfl) htne
        · exact hts
    · have h2 : (addTracking noFail s notificationsEnabled now prov st).2 =
          st := by
        simp [addTracking, hv]
      rw [h2]
      exact hinv
  · cases hfind : findTracking st (normalizeId s) with
    | none =>
      have h2 : (updateTracking s now prov st).2 = st := by
        simp [updateTracking, hfind]
      rw [h2]
      exact hinv
    | some t =>
      by_cases hd : t.delivered = true
      · have h2 : (updateTracking s now prov st).2 = st := by
          simp [updateTracking, hfind, hd]
        rw [h2]
        exact hinv
      · have hnd : t.delivered = false := by
          simpa using hd
        by_cases hb : (t.last_status == some prov.status) = true
        · have heq : t.last_status = some prov.status := by
            simpa using hb
          have h2 : (updateTracking s now prov st).2 =
              updateWhere st (normalizeId s) (touchRow now) := by
            rw [check_unchanged_step s st now prov t hfind hnd heq]
          rw [h2]
          exact histInv_updateWhere_preserve st (normalizeId s)
            (touchRow now) (fun r => rfl) (fun r => rfl) hinv
        · have hb' : (t.last_status == some prov.status) = false := by
            simpa using hb
          have h2 : (updateTracking s now prov st).2 =
              updateWhere (insertHistory st (normalizeId s) prov.status now)
                (normalizeId s) (setStatusRow prov now) := by
            rw [check_changed_step s st now prov t hfind hnd hb']
          rw [h2]
          apply histInv_append_update st (normalizeId s) prov.status now
            (setStatusRow prov now) (fun r => rfl) (fun r => rfl)
          · intro t0 ht0 _ e he
            exact hinv t0 ht0 e he
          · exact hts

/-- C4 witness: the invariant after an Add on the empty store and a Check
on that store. -/
theorem lastStatus_matches_most_recent_history_witness :
    HistInv (addTracking noFail "AB123456789GB" true 3
      (ProviderResult.mk "Item received by Royal Mail" false)
      emptyStore).2 ∧
    HistInv (updateTracking "AB123456789GB" 3
      (ProviderResult.mk "Item received by Royal Mail" false)
      emptyStore).2 :=
  lastStatus_matches_most_recent_history "AB123456789GB" emptyStore true 3
    (ProviderResult.mk "Item received by Royal Mail" false)
    (fun t ht => absurd ht (List.not_mem_nil t))
    (fun h hh => absurd hh (List.not_mem_nil h))

/-- C9: the mock provider is a step function of the elapsed time: it equals
the fixed answer of the one-minute bucket the elapsed time falls into
(`bucketOf` clips at the unbounded fifth bucket); the bucket index is
monotone in elapsed time and the five bucket answers are pairwise distinct,
so the status never regresses to an earlier bucket's status; the delivered
flag holds exactly in the final bucket, hence for every elapsed time of at
least four minutes. -/
theorem fetchStatus_bucket_properties :
    (∀ e, fetchRoyalMailStatus e = bucketStatus (bucketOf e)) ∧
    (∀ e1 e2, e1 ≤ e2 → bucketOf e1 ≤ bucketOf e2) ∧
    (∀ i j : Fin 5, bucketStatus i.val = bucketStatus j.val → i = j) ∧
    (∀ e, (fetchRoyalMailStatus e).delivered = true ↔ bucketOf e = 4) ∧
    (∀ e, 240000 ≤ e → (fetchRoyalMailStatus e).delivered = true) := by
  refine ⟨?_, ?_, ?_, ?_, ?_⟩
  · intro e
    unfold fetchRoyalMailStatus bucketOf
    split_ifs with h1 h2 h3 h4
    · rw [min_eq_left (by omega), show e / 60000 = 0 by omega]
      rfl
    · rw [min_eq_left (by omega), show e / 60000 = 1 by omega]
      rfl
    · rw [min_eq_left (by omega), show e / 60000 = 2 by omega]
      rfl
    · rw [min_eq_left (by omega), show e / 60000 = 3 by omega]
      rfl
    · rw [min_eq_right (by omega : 4 ≤ e / 60000)]
      rfl
  · intro e1 e2 h
    exact min_le_min (Nat.div_le_div_right h) (le_refl 4)
  · decide
  · intro e
    unfold fetchRoyalMailStatus bucketOf
    split_ifs with h1 h2 h3 h4 <;>
      simp <;> omega
  · intro e h
    unfold fetchRoyalMailStatus
    split_ifs with h1 h2 h3 h4 <;> first | omega | rfl

/-- C9 witness. -/
theorem fetchStatus_bucket_properties_witness :
    bucketOf 90000 ≤ bucketOf 300000 ∧
    (fetchRoyalMailStatus 300000).delivered = true ∧
    (2 : Fin 5) = (2 : Fin 5) :=
  ⟨fetchStatus_bucket_properties.2.1 90000 300000 (by decide),
   fetchStatus_bucket_properties.2.2.2.2 300000 (by decide),
   fetchStatus_bucket_properties.2.2.1 2 2 rfl⟩

/-! ### Failures during Add -/

lemma find?_append_singleton (l : List TrackingRow) (r : TrackingRow)
    (id : String)
    (h : l.find? (fun x => x.tracking_id == id) = none)
    (hr : (r.tracking_id == id) = true) :
    (l ++ [r]).find? (fun x => x.tracking_id == id) = some r := by
  induction l with
  | nil =>
    simp only [List.nil_append]
    rw [List.find?_cons_of_pos (p := fun (x : TrackingRow) =>
      x.tracking_id == id) _ hr]
  | cons a l ih =>
    by_cases ha : (a.tracking_id == id) = true
    · rw [List.find?_cons_of_pos (p := fun (x : TrackingRow) =>
        x.tracking_id == id) _ ha] at h
      exact absurd h (by simp)
    · rw [List.find?_cons_of_neg (p := fun (x : TrackingRow) =>
        x.tracking_id == id) _ ha] at h
      rw [List.cons_append, List.find?_cons_of_neg (p := fun (x : TrackingRow) =>
        x.tracking_id == id) _ ha]
      exact ih h

/-- C1 counterexample: a provider failure during Add of a fresh valid
identifier is surfaced as a server error, but the store is NOT left as it
was — the partially-initialized tracking record from the already-committed
initial insert is present afterwards (there is no transaction around the
steps of `addTracking`). -/
theorem add_failure_partial_state_counterexample :
    (addTracking (DbFail.mk false false true false false) "AB123456789GB"
      true 5 (ProviderResult.mk "Item received by Royal Mail" false)
      emptyStore).1 = AddResult.serverError ∧
    (addTracking (DbFail.mk false false true false false) "AB123456789GB"
      true 5 (ProviderResult.mk "Item received by Royal Mail" false)
      emptyStore).2 ≠ emptyStore ∧
    (findTracking (addTracking (DbFail.mk false false true false false)
      "AB123456789GB" true 5
      (ProviderResult.mk "Item received by Royal Mail" false)
      emptyStore).2 "AB123456789GB").isSome = true := by
  decide

/-- C1 (amended): when a step of Add fails on a fresh, valid identifier,
the error is surfaced to the caller as the server-error response; if the
failing step is the duplicate check or the initial insert the store is left
exactly as before, but a later failure leaves partial state: a provider or
history-insert failure leaves the freshly inserted, not-yet-statused
tracking record, and a failure of the final status update additionally
leaves the history entry. -/
theorem add_failure_surfaced_partial_state (fs : DbFail) (s : String)
    (b : Bool) (now : Nat) (prov : ProviderResult) (st : Store)
    (hv : validateTrackingId s = true)
    (hnone : findTracking st (normalizeId s) = none)
    (hfail : (fs.failSelect || fs.failInsertTracking || fs.failProvider ||
      fs.failInsertHistory || fs.failUpdateTracking) = true) :
    (addTracking fs s b now prov st).1 = AddResult.serverError ∧
    (fs.failSelect = true ∨ fs.failInsertTracking = true →
      (addTracking fs s b now prov st).2 = st) ∧
    (fs.failSelect = false → fs.failInsertTracking = false →
      (fs.failProvider || fs.failInsertHistory) = true →
      (addTracking fs s b now prov st).2 =
        insertTrackingRow st (initialRow (normalizeId s) b now) ∧
      findTracking (addTracking fs s b now prov st).2 (normalizeId s) =
        some (initialRow (normalizeId s) b now)) ∧
    (fs.failSelect = false → fs.failInsertTracking = false →
      fs.failProvider = false → fs.failInsertHistory = false →
      fs.failUpdateTracking = true →
      (addTracking fs s b now prov st).2 =
        insertHistory
          (insertTrackingRow st (initialRow (normalizeId s) b now))
          (normalizeId s) prov.status now) := by
  have hfindins : findTracking
      (insertTrackingRow st (initialRow (normalizeId s) b now))
      (normalizeId s) = some (initialRow (normalizeId s) b now) :=
    find?_append_singleton st.tracking (initialRow (normalizeId s) b now)
      (normalizeId s) hnone (by simp [initialRow])
  obtain ⟨f1, f2, f3, f4, f5⟩ := fs
  cases f1 <;> cases f2 <;> cases f3 <;> cases f4 <;> cases f5 <;>
    simp_all [addTracking]

/-- C1 witness: a provider failure on the empty store surfaces the error
and leaves exactly the partial record. -/
theorem add_failure_surfaced_partial_state_witness :
    (addTracking (DbFail.mk false false true false false) "AB123456789GB"
      true 5 (ProviderResult.mk "In transit to delivery depot" false)
      emptyStore).1 = AddResult.serverError ∧
    ((addTracking (DbFail.mk false false true false false) "AB123456789GB"
       true 5 (ProviderResult.mk "In transit to delivery depot" false)
       emptyStore).2 =
      insertTrackingRow emptyStore
        (initialRow (normalizeId "AB123456789GB") true 5) ∧
     findTracking (addTracking (DbFail.mk false false true false false)
       "AB123456789GB" true 5
       (ProviderResult.mk "In transit to delivery depot" false)
       emptyStore).2 (normalizeId "AB123456789GB") =
      some (initialRow (normalizeId "AB123456789GB") true 5)) :=
  ⟨(add_failure_surfaced_partial_state
      (DbFail.mk false false true false false) "AB123456789GB" true 5
      (ProviderResult.mk "In transit to delivery depot" false) emptyStore
      (by decide) (by decide) (by decide)).1,
   (add_failure_surfaced_partial_state
      (DbFail.mk false false true false false) "AB123456789GB" true 5
      (ProviderResult.mk "In transit to delivery depot" false) emptyStore
      (by decide) (by decide) (by decide)).2.2.1 rfl rfl (by decide)⟩

/-! ### The validator against the spec's wording -/

/-- The specification's description of a valid identifier, stated
independently of the regular expression: after normalizing (trim then
upper-case, so letters are `A`–`Z`), the string is exactly two letters,
then nine digits, then two letters, with nothing else before or after. -/
def SpecValidId (raw : String) : Prop :=
  ∃ l m r, jsClean raw.data = l ++ m ++ r ∧
    l.length = 2 ∧ m.length = 9 ∧ r.length = 2 ∧
    (∀ c ∈ l, isUpperLetter c = true) ∧
    (∀ c ∈ m, isDigitChar c = true) ∧
    (∀ c ∈ r, isUpperLetter c = true)

/-- C8: `validateTrackingId` returns true exactly on the strings the spec
describes: trim and upper-case, then two letters, nine digits, two letters,
anchored at both ends.  Any string violating length, character class or
anchoring makes the predicate on the right false, hence the validator
returns false; the validator is a total pure function, so it cannot fail
or have side effects. -/
theorem validate_iff_spec_pattern (raw : String) :
    validateTrackingId raw = true ↔ SpecValidId raw := by
  unfold validateTrackingId SpecValidId matchesRoyalMailPattern
  constructor
  · intro h
    simp only [Bool.and_eq_true, beq_iff_eq, List.all_eq_true] at h
    obtain ⟨⟨⟨hlen, h1⟩, h2⟩, h3⟩ := h
    refine ⟨(jsClean raw.data).take 2, ((jsClean raw.data).drop 2).take 9,
      (jsClean raw.data).drop 11, ?_, ?_, ?_, ?_, h1, h2, h3⟩
    · have e3 : ((jsClean raw.data).drop 2).drop 9 =
          (jsClean raw.data).drop 11 := by
        rw [List.drop_drop]
      rw [List.append_assoc, ← e3, List.take_append_drop,
        List.take_append_drop]
    · rw [List.length_take, hlen]
      decide
    · rw [List.length_take, List.length_drop, hlen]
      decide
    · rw [List.length_drop, hlen]
  · rintro ⟨l, m, r, hdecomp, hl, hm, hr, hal, ham, har⟩
    rw [hdecomp]
    simp only [Bool.and_eq_true, beq_iff_eq, List.all_eq_true]
    refine ⟨⟨⟨?_, ?_⟩, ?_⟩, ?_⟩
    · simp [hl, hm, hr]
    · rw [List.append_assoc, List.take_left' hl]
      exact hal
    · rw [List.append_assoc, List.drop_left' hl, List.take_left' hm]
      exact ham
    · rw [List.drop_left' (by rw [List.length_append, hl, hm])]
      exact har
